import Mathlib

set_option maxRecDepth 8000

/-!
Shallow embedding of the CSV product-import core of the repository
(scripts/csv_processor.py, scripts/column_mapper.py, scripts/utils.py).

Modelling conventions:
* CSV cells are modelled as the raw field strings of the file; pandas
  turns empty fields and its default NA markers into NaN, modelled by
  `PyVal.nan`.  The pandas numeric-dtype inference (a fully numeric
  column becoming int64/float64) is outside the model; cells keep their
  textual form, which `str(...)` would also produce for string columns.
* Python string methods (strip, split, replace, upper, lower,
  startswith, join, slicing) are modelled by structurally recursive
  functions on the character list, on the ASCII fragment.
* Python exceptions are modelled with `Except String`; the error strings
  are tags naming the Python exception class, not its message text.
* Python `float(...)` parsing is modelled on the decimal-numeral
  fragment of its grammar (optional sign, digits, optional fraction);
  exponents, underscores and the inf/nan words are outside the model.
  The parsed value is kept as an exact decimal (sign, magnitude,
  exponent); formatting with two decimal places rounds the hundredths
  half to even, as Python does on exactly representable values.
-/

/-- Value of one pandas cell / Python object as the processor sees it:
`pynone` is Python None (absent label in `Series.get`), `nan` is a float
NaN (missing CSV field), `str` is a string cell. -/
inductive PyVal where
  | pynone
  | nan
  | str (s : String)
deriving DecidableEq, Repr

/-- Python truthiness: None is falsy, float NaN is truthy, a string is
truthy iff nonempty. -/
def pyTruthy : PyVal → Bool
  | PyVal.pynone => false
  | PyVal.nan => true
  | PyVal.str s => s != ""

/-- Python `str(...)` of a cell value. -/
def pyStr : PyVal → String
  | PyVal.pynone => "None"
  | PyVal.nan => "nan"
  | PyVal.str s => s

/-- pandas `pd.notna`. -/
def notna : PyVal → Bool
  | PyVal.pynone => false
  | PyVal.nan => false
  | PyVal.str _ => true

/-- ASCII whitespace stripped by Python `str.strip`. -/
def pyWhitespace (c : Char) : Bool :=
  c == ' ' || c == '\t' || c == '\n' || c == '\r' || c == '\x0b' || c == '\x0c'

/-- Python `str.strip()`: drop whitespace from both ends. -/
def pyStrip (s : String) : String :=
  String.mk (((s.toList.dropWhile pyWhitespace).reverse.dropWhile pyWhitespace).reverse)

/-- Python `str.startswith(pre)`. -/
def pyStartsWith (s pre : String) : Bool :=
  pre.toList.isPrefixOf s.toList

/-- Split a character list on a separator character; an empty input
gives one empty part, like Python `str.split` with an explicit
separator. -/
def splitOnChar (sep : Char) : List Char → List (List Char)
  | [] => [[]]
  | c :: t =>
    match splitOnChar sep t with
    | [] => [[c]]
    | h :: r => if c == sep then [] :: h :: r else (c :: h) :: r

/-- Python `s.split(sep)` for a one-character separator. -/
def pySplit (s : String) (sep : Char) : List String :=
  (splitOnChar sep s.toList).map String.mk

/-- Python `s.replace(a, "")` for a one-character pattern. -/
def removeChar (a : Char) (s : String) : String :=
  String.mk (s.toList.filter (fun c => c != a))

/-- Python `s.replace(a, b)` for one-character pattern and
replacement. -/
def swapChar (a b : Char) (s : String) : String :=
  String.mk (s.toList.map (fun c => if c == a then b else c))

/-- Python `str.upper()` on the ASCII fragment. -/
def pyUpper (s : String) : String :=
  String.mk (s.toList.map Char.toUpper)

/-- Python `str.lower()` on the ASCII fragment. -/
def pyLower (s : String) : String :=
  String.mk (s.toList.map Char.toLower)

/-- Python `",".join(parts)`. -/
def joinComma : List String → String
  | [] => ""
  | [x] => x
  | x :: y :: t => x ++ "," ++ joinComma (y :: t)

/-- Python slicing `s[:n]` by code points. -/
def pyTake (s : String) (n : Nat) : String :=
  String.mk (s.toList.take n)

/-- One raw row: association list from column name to cell value, in
header order. -/
abbrev Row : Type := List (String × PyVal)

/-- pandas `row.get(c)` with default None. -/
def rowGet (r : Row) (c : String) : PyVal :=
  match List.find? (fun p => p.1 == c) r with
  | some p => p.2
  | Option.none => PyVal.pynone

/-- pandas `row.get(c, d)` with an explicit default. -/
def rowGetD (r : Row) (c : String) (d : PyVal) : PyVal :=
  match List.find? (fun p => p.1 == c) r with
  | some p => p.2
  | Option.none => d

/-- Python `row[c]` indexing for an optional column name: raises
KeyError when the mapping entry is None or the label is absent. -/
def rowIndexVal (r : Row) (c : Option String) : Except String PyVal :=
  match c with
  | some col =>
      match List.find? (fun p => p.1 == col) r with
      | some p => Except.ok p.2
      | Option.none => Except.error "KeyError"
  | Option.none => Except.error "KeyError"

/-- Python `row[c]` followed by string methods (`.replace`): a NaN cell
raises AttributeError because float has no `replace`. -/
def rowIndexStr (r : Row) (c : Option String) : Except String String :=
  match rowIndexVal r c with
  | Except.ok (PyVal.str s) => Except.ok s
  | Except.ok _ => Except.error "AttributeError"
  | Except.error e => Except.error e

/-- utils.clean_and_format_data: NA or empty string gives the default,
otherwise the stripped string form. -/
def clean_and_format_data (v : PyVal) (d : String) : String :=
  match v with
  | PyVal.pynone => d
  | PyVal.nan => d
  | PyVal.str s => if s = "" then d else pyStrip s

/-- Comma-split option values of csv_processor lines 22/24: split the
`str(...)` form on commas, strip each part, keep the truthy ones. -/
def optionValues (r : Row) (c : String) : List String :=
  (((pySplit (pyStr (rowGetD r c (PyVal.str ""))) ',').map pyStrip).filter
    (fun v => v != ""))

/-- Numeric value of a run of decimal digit characters. -/
def digitsToNat (cs : List Char) : Nat :=
  cs.foldl (fun a c => 10 * a + (c.toNat - 48)) 0

/-- Python `int(s)` on the decimal-integer fragment: optional sign and a
nonempty run of digits, surrounding whitespace allowed. -/
def pyIntOfString (s : String) : Except String Int :=
  let digitsVal : List Char → Except String Int := fun cs =>
    if cs ≠ [] ∧ cs.all Char.isDigit then
      Except.ok (Int.ofNat (digitsToNat cs))
    else Except.error "ValueError"
  match (pyStrip s).toList with
  | '+' :: rest => digitsVal rest
  | '-' :: rest => (digitsVal rest).map (fun n => -n)
  | cs => digitsVal cs

/-- Quantity of csv_processor lines 39/67/91: the literally named
`inventory_quantity` cell when present and not NA (then `int(...)` of
it, which may raise ValueError), else 1. -/
def variantQuantity (r : Row) : Except String Int :=
  match rowGet r "inventory_quantity" with
  | PyVal.str s => pyIntOfString s
  | _ => Except.ok 1

/-- Exact decimal value of a parsed Python float literal: the value is
`mag / 10 ^ exp`, negated when `neg` is set (the sign is kept apart so
that a negative zero keeps its sign, as Python floats do). -/
structure Dec where
  neg : Bool
  mag : Nat
  exp : Nat
deriving DecidableEq, Repr

/-- Python `float(s)` on the decimal-numeral fragment (see file
header): optional sign, then digits with an optional fractional part,
at least one digit overall. -/
def parsePyFloat (s : String) : Option Dec :=
  let unsigned : List Char → Option (Nat × Nat) := fun cs =>
    let intPart := cs.takeWhile Char.isDigit
    match cs.dropWhile Char.isDigit with
    | [] => if intPart = [] then Option.none else some (digitsToNat intPart, 0)
    | '.' :: fr =>
        if fr.all Char.isDigit ∧ ¬(intPart = [] ∧ fr = []) then
          some (digitsToNat intPart * 10 ^ fr.length + digitsToNat fr, fr.length)
        else Option.none
    | _ => Option.none
  match (pyStrip s).toList with
  | '+' :: rest => (unsigned rest).map (fun p => { neg := false, mag := p.1, exp := p.2 })
  | '-' :: rest => (unsigned rest).map (fun p => { neg := true, mag := p.1, exp := p.2 })
  | cs => (unsigned cs).map (fun p => { neg := false, mag := p.1, exp := p.2 })

/-- Division of naturals rounded to the nearest integer, ties to
even. -/
def divRoundHalfEven (a b : Nat) : Nat :=
  let q := a / b
  let r := a % b
  if 2 * r < b then q
  else if b < 2 * r then q + 1
  else if q % 2 = 0 then q else q + 1

/-- Decimal digit characters of a natural number, least significant
first, with explicit fuel for structural recursion (the number itself
is always enough fuel). -/
def natToRevDigitsAux : Nat → Nat → List Char
  | 0, _ => []
  | _ + 1, 0 => []
  | fuel + 1, n + 1 =>
    Nat.digitChar ((n + 1) % 10) :: natToRevDigitsAux fuel ((n + 1) / 10)

/-- Decimal digit characters of a natural number, least significant
first. -/
def natToRevDigits (n : Nat) : List Char :=
  natToRevDigitsAux n n

/-- Decimal digit characters of a natural number, standard order. -/
def natDigits (n : Nat) : List Char :=
  if n = 0 then ['0'] else (natToRevDigits n).reverse

/-- Two zero-padded decimal digits of a number below 100. -/
def twoDigits (n : Nat) : List Char :=
  [Nat.digitChar (n / 10 % 10), Nat.digitChar (n % 10)]

/-- Python two-decimal fixed-point formatting of a finite value
(f-string format spec .2f): round the hundredths half to even and print
sign, integer part, dot, two fraction digits. -/
def formatTwoDec (d : Dec) : String :=
  let cents := divRoundHalfEven (d.mag * 100) (10 ^ d.exp)
  String.mk ((if d.neg then ['-'] else [])
    ++ natDigits (cents / 100) ++ '.' :: twoDigits (cents % 100))

/-- Price normalization of csv_processor lines 33-38/61-66/92-97:
`float(...)` of the cleaned string, 0.0 on ValueError, formatted with
two decimal places. -/
def pyPriceFormat (raw : String) : String :=
  match parsePyFloat raw with
  | some d => formatTwoDec d
  | Option.none => formatTwoDec { neg := false, mag := 0, exp := 0 }

/-- Column mapping produced by ColumnMapper.detect_csv_structure: one
optional source column per semantic field. -/
structure ColumnMapping where
  title : Option String
  description : Option String
  price : Option String
  variants : Option String
  quantity : Option String
  tags : Option String
  vendor : Option String
  category : Option String
  image : Option String
  tax : Option String
  track : Option String
deriving DecidableEq, Repr

/-- Cleaned price string of a row (csv_processor line 33 etc.): the
mapped price cell, or the empty string when no price column mapped,
with default "0". -/
def priceRaw (r : Row) (m : ColumnMapping) : String :=
  clean_and_format_data
    (match m.price with
     | some c => rowGet r c
     | Option.none => PyVal.str "")
    "0"

/-- Config.DEFAULT_WEIGHT (the float 0.5, as an exact decimal). -/
def DEFAULT_WEIGHT : Dec := { neg := false, mag := 5, exp := 1 }

/-- Config.DEFAULT_WEIGHT_UNIT. -/
def DEFAULT_WEIGHT_UNIT : String := "kg"

/-- Config.DEFAULT_INVENTORY_POLICY. -/
def DEFAULT_INVENTORY_POLICY : String := "deny"

/-- One variant dict as built by CSVProcessor.parse_variants_from_row. -/
structure Variant where
  title : String
  option1 : String
  option2 : Option String
  price : String
  sku : String
  inventory_quantity : Int
  weight : Dec
  weight_unit : String
  inventory_management : String
  inventory_policy : String
  requires_shipping : Bool
  taxable : Bool
deriving DecidableEq, Repr

/-- pathlib `Path(name).stem`: the name without its suffix; a suffix
needs a dot that is neither the first nor the last character. -/
def pathStem (name : String) : String :=
  let cs := name.toList
  let sufLen := (cs.reverse.takeWhile (fun c => c != '.')).length
  if sufLen = cs.length then name
  else if sufLen = 0 then name
  else if cs.length - sufLen - 1 = 0 then name
  else String.mk (cs.take (cs.length - sufLen - 1))

/-- File part of the SKU (csv_processor lines 40/68/98): stem of the
filename with dashes and underscores removed, uppercased, first three
characters. -/
def filePart (filename : String) : String :=
  pyTake (pyUpper (removeChar '_' (removeChar '-' (pathStem filename)))) 3

/-- Title part of the SKU (csv_processor lines 41/69/99): title with
spaces turned to dashes and apostrophes removed, uppercased, first ten
characters. -/
def titlePart (t : String) : String :=
  pyTake (pyUpper (removeChar '\x27' (swapChar ' ' '-' t))) 10

/-- Python `str.isdigit` on the ASCII fragment: nonempty and all
decimal digits. -/
def pyIsDigit (s : String) : Bool :=
  s != "" && s.toList.all Char.isDigit

/-- Cleaned generic variant-size cell of the fallback branch
(csv_processor line 89): the mapped variants column or the empty
string, default "50". -/
def variantSizeRaw (r : Row) (m : ColumnMapping) : String :=
  clean_and_format_data
    (match m.variants with
     | some c => rowGet r c
     | Option.none => PyVal.str "") "50"

/-- CSVProcessor.parse_variants_from_row (csv_processor lines 19-116).
Three branches: one variant per option-1 value when only option 1 is
present, the option-1 by option-2 cross product when both are present,
otherwise one fallback variant from the generic variant-size column.
Exceptions (ValueError from `int`, Key/AttributeError from the title
access) propagate as errors; since every branch of the source performs
the same quantity and title lookups, in the same order, before using
them, the two lookups are hoisted in front of the branch choice. -/
def parse_variants_from_row (r : Row) (m : ColumnMapping) (filename : String) :
    Except String (List Variant) :=
  match variantQuantity r with
  | Except.error e => Except.error e
  | Except.ok quantity =>
    match rowIndexStr r m.title with
    | Except.error e => Except.error e
    | Except.ok t =>
      if pyTruthy (rowGet r "Option1 Name")
          && !(optionValues r "Option1 Value").isEmpty
          && !pyTruthy (rowGet r "Option2 Name") then
        Except.ok ((optionValues r "Option1 Value").map (fun val =>
          { title := val
            option1 := val
            option2 := Option.none
            price := pyPriceFormat (priceRaw r m)
            sku := filePart filename ++ "-" ++ titlePart t ++ "-" ++ val
            inventory_quantity := quantity
            weight := DEFAULT_WEIGHT
            weight_unit := DEFAULT_WEIGHT_UNIT
            inventory_management := "shopify"
            inventory_policy := DEFAULT_INVENTORY_POLICY
            requires_shipping := true
            taxable := true }))
      else if pyTruthy (rowGet r "Option1 Name")
          && !(optionValues r "Option1 Value").isEmpty
          && pyTruthy (rowGet r "Option2 Name")
          && !(optionValues r "Option2 Value").isEmpty then
        Except.ok ((optionValues r "Option1 Value").flatMap (fun val1 =>
          (optionValues r "Option2 Value").map (fun val2 =>
            { title := val1 ++ " / " ++ val2
              option1 := val1
              option2 := some val2
              price := pyPriceFormat (priceRaw r m)
              sku := filePart filename ++ "-" ++ titlePart t ++ "-" ++ val1 ++ "-" ++ val2
              inventory_quantity := quantity
              weight := DEFAULT_WEIGHT
              weight_unit := DEFAULT_WEIGHT_UNIT
              inventory_management := "shopify"
              inventory_policy := DEFAULT_INVENTORY_POLICY
              requires_shipping := true
              taxable := true })))
      else
        Except.ok [{ title :=
                       if pyIsDigit (variantSizeRaw r m) then variantSizeRaw r m ++ "ml"
                       else variantSizeRaw r m
                     option1 :=
                       if pyIsDigit (variantSizeRaw r m) then variantSizeRaw r m ++ "ml"
                       else variantSizeRaw r m
                     option2 := Option.none
                     price := pyPriceFormat (priceRaw r m)
                     sku := filePart filename ++ "-" ++ titlePart t ++ "-" ++ variantSizeRaw r m
                     inventory_quantity := quantity
                     weight := DEFAULT_WEIGHT
                     weight_unit := DEFAULT_WEIGHT_UNIT
                     inventory_management := "shopify"
                     inventory_policy := DEFAULT_INVENTORY_POLICY
                     requires_shipping := true
                     taxable := true }]

/-- ColumnMapper.COLUMN_MAPPINGS title synonyms. -/
def titleSynonyms : List String := ["TITLE", "title", "name", "product_name"]

/-- ColumnMapper.COLUMN_MAPPINGS description synonyms. -/
def descriptionSynonyms : List String :=
  ["Description", "description", "body_html", "desc", "details"]

/-- ColumnMapper.COLUMN_MAPPINGS price synonyms. -/
def priceSynonyms : List String := ["Price", "price", "cost", "amount", "unit_price"]

/-- ColumnMapper.COLUMN_MAPPINGS variants synonyms. -/
def variantsSynonyms : List String := ["variants", "variant", "size", "ml", "volume"]

/-- ColumnMapper.COLUMN_MAPPINGS quantity synonyms. -/
def quantitySynonyms : List String :=
  ["NO.OF PIECES", "quantity", "stock", "inventory", "pieces"]

/-- ColumnMapper.COLUMN_MAPPINGS tags synonyms. -/
def tagsSynonyms : List String := ["TAGS", "tags", "tag", "keywords"]

/-- ColumnMapper.COLUMN_MAPPINGS vendor synonyms. -/
def vendorSynonyms : List String :=
  ["Vendor", "vendor", "brand", "supplier", "manufacturer"]

/-- ColumnMapper.COLUMN_MAPPINGS category synonyms. -/
def categorySynonyms : List String := ["Category", "category", "type", "product_type"]

/-- ColumnMapper.COLUMN_MAPPINGS image synonyms. -/
def imageSynonyms : List String := ["Media Link", "image", "photo", "media", "image_url"]

/-- ColumnMapper.COLUMN_MAPPINGS tax synonyms. -/
def taxSynonyms : List String := ["Charge tax on this product", "tax", "taxable"]

/-- ColumnMapper.COLUMN_MAPPINGS track synonyms. -/
def trackSynonyms : List String := ["Track quantity", "track", "inventory_tracking"]

/-- First header that belongs to the synonym list, scanning headers in
CSV order (column_mapper line 37). -/
def findCol (columns syns : List String) : Option String :=
  columns.find? (fun c => syns.contains c)

/-- ColumnMapper.detect_csv_structure: fail when no title synonym is a
header, else map every field to its first matching header. -/
def detect_csv_structure (columns : List String) : Except String ColumnMapping :=
  if titleSynonyms.any (fun col => columns.contains col) then
    Except.ok
      { title := findCol columns titleSynonyms
        description := findCol columns descriptionSynonyms
        price := findCol columns priceSynonyms
        variants := findCol columns variantsSynonyms
        quantity := findCol columns quantitySynonyms
        tags := findCol columns tagsSynonyms
        vendor := findCol columns vendorSynonyms
        category := findCol columns categorySynonyms
        image := findCol columns imageSynonyms
        tax := findCol columns taxSynonyms
        track := findCol columns trackSynonyms }
  else Except.error "MissingRequiredColumn"

/-- One product dict as built by CSVProcessor.prepare_product_data.
Fields that the source stores as raw cell objects (handle when an
explicit Handle cell is truthy, product category) keep the `PyVal`
form; fields passed through clean_and_format_data are strings. -/
structure Product where
  title : String
  handle : PyVal
  body_html : String
  vendor : String
  product_type : String
  product_category : PyVal
  tags : String
  status : String
  variants : List Variant
  images : List String
  options : List (String × List String)
deriving DecidableEq, Repr

/-- CSVProcessor.prepare_product_data (csv_processor lines 121-183):
scalar fields from one row, with defaults; calls
parse_variants_from_row, whose exceptions propagate. -/
def prepare_product_data (r : Row) (m : ColumnMapping) (filename : String) :
    Except String Product :=
  match rowIndexVal r m.title with
  | Except.error e => Except.error e
  | Except.ok titleVal =>
    let title := clean_and_format_data titleVal ""
    let description := clean_and_format_data
      (match m.description with
       | some c => rowGet r c
       | Option.none => PyVal.str "")
      ("<p>" ++ title ++ " - Imported from " ++ pathStem filename ++ "</p>")
    let handleVal := rowGet r "Handle"
    let handle := if pyTruthy handleVal then handleVal
      else PyVal.str (removeChar '\x27' (swapChar ' ' '-' (pyLower title)))
    let pcVal := rowGet r "Product Category"
    let product_category := if pyTruthy pcVal then pcVal
      else match m.category with
           | some c => rowGet r c
           | Option.none => PyVal.str ""
    let tags0 := clean_and_format_data
      (match m.tags with
       | some c => rowGet r c
       | Option.none => PyVal.str "") "imported"
    let tags := if tags0 != "" then
        joinComma ((pySplit tags0 ',').map pyStrip)
      else tags0
    let images :=
      match m.image with
      | some c =>
          let media_link := clean_and_format_data (rowGet r c) ""
          if pyStartsWith media_link "http" then [media_link] else []
      | Option.none => []
    match parse_variants_from_row r m filename with
    | Except.error e => Except.error e
    | Except.ok variants =>
      let option1_name := rowGet r "Option1 Name"
      let option1_values := optionValues r "Option1 Value"
      let option2_name := rowGet r "Option2 Name"
      let option2_values := optionValues r "Option2 Value"
      let options :=
        (if pyTruthy option1_name && !option1_values.isEmpty then
          [(pyStr option1_name, option1_values)] else [])
        ++ (if pyTruthy option2_name && !option2_values.isEmpty then
          [(pyStr option2_name, option2_values)] else [])
      Except.ok
        { title := title
          handle := handle
          body_html := description
          vendor := clean_and_format_data
            (match m.vendor with
             | some c => rowGet r c
             | Option.none => PyVal.str "") "Default Vendor"
          product_type := clean_and_format_data
            (match m.category with
             | some c => rowGet r c
             | Option.none => PyVal.str "") "General"
          product_category := product_category
          tags := tags
          status := "draft"
          variants := variants
          images := images
          options := options }

/-- One CSV file after parsing: the header row and the raw field
strings of each record. -/
structure Csv where
  header : List String
  rows : List (List String)
deriving DecidableEq, Repr

/-- Default NA markers of pandas read_csv: these field strings (and a
missing field) load as NaN. -/
def naStrings : List String :=
  ["", "#N/A", "#N/A N/A", "#NA", "-1.#IND", "-1.#QNAN", "-NaN", "-nan",
   "1.#IND", "1.#QNAN", "<NA>", "N/A", "NA", "NULL", "NaN", "None",
   "n/a", "nan", "null"]

/-- Cell value as loaded by pandas: NA markers and missing fields
become NaN. -/
def cellVal (c : Option String) : PyVal :=
  match c with
  | some s => if naStrings.contains s then PyVal.nan else PyVal.str s
  | Option.none => PyVal.nan

/-- One parsed record as a Row keyed by the header. -/
def buildRow (header : List String) (cells : List String) : Row :=
  header.enum.map (fun p => (p.2, cellVal (cells.get? p.1)))

/-- Row filtering of csv_processor lines 197-200: drop NA titles, then
titles starting with the comment marker, then titles blank after
strip. -/
def filteredRows (csv : Csv) : List Row :=
  let rows := csv.rows.map (buildRow csv.header)
  let rows := rows.filter (fun r => notna (rowGet r "TITLE"))
  let rows := rows.filter (fun r => !pyStartsWith (pyStr (rowGet r "TITLE")) "#")
  rows.filter (fun r => pyStrip (pyStr (rowGet r "TITLE")) != "")

/-- Code-point comparison of strings, as Python `sorted` orders
them. -/
def strLe : List Char → List Char → Bool
  | [], _ => true
  | _ :: _, [] => false
  | a :: as, b :: bs =>
    if a.toNat < b.toNat then true
    else if b.toNat < a.toNat then false
    else strLe as bs

/-- Insertion into an ascending list, keeping ascending order. -/
def insertSorted (a : String) : List String → List String
  | [] => [a]
  | b :: t => if strLe a.toList b.toList then a :: b :: t else b :: insertSorted a t

/-- Python `sorted` on a list of strings. -/
def sortStrings (l : List String) : List String :=
  l.foldr insertSorted []

/-- Distinct string Handle values in first-occurrence order, then
sorted, as pandas groupby produces its group keys (NaN keys are
dropped). -/
def handleKeys (rows : List Row) : List String :=
  let ks := rows.filterMap (fun r =>
    match rowGet r "Handle" with
    | PyVal.str s => some s
    | _ => Option.none)
  sortStrings (ks.foldl (fun acc k => if acc.contains k then acc else acc ++ [k]) [])

/-- pandas `df.groupby("Handle")`: groups in sorted key order, rows of a
group in source order. -/
def groupByHandle (rows : List Row) : List (String × List Row) :=
  (handleKeys rows).map (fun k =>
    (k, rows.filter (fun r => rowGet r "Handle" == PyVal.str k)))

/-- List.mapM specialised to Except with explicit error propagation:
the first error wins, as in the Python loop. -/
def exceptMapM (f : α → Except String β) : List α → Except String (List β)
  | [] => Except.ok []
  | a :: as =>
    match f a with
    | Except.error e => Except.error e
    | Except.ok b =>
      match exceptMapM f as with
      | Except.error e => Except.error e
      | Except.ok bs => Except.ok (b :: bs)

/-- Insert into a Python set modelled as a duplicate-free list in
insertion order. -/
def insertNew (l : List String) (s : String) : List String :=
  if l.contains s then l else l ++ [s]

/-- Option collection of csv_processor lines 222-228 over the rows of
one group: last truthy option name wins; the stripped `str(...)` of the
whole option-value cell is added to a set. -/
def collectGroupOptions (g : List Row) :
    PyVal × List String × PyVal × List String :=
  g.foldl (fun st r =>
    let (o1n, o1v, o2n, o2v) := st
    let (o1n', o1v') :=
      if pyTruthy (rowGet r "Option1 Name") then
        (rowGet r "Option1 Name", insertNew o1v (pyStrip (pyStr (rowGet r "Option1 Value"))))
      else (o1n, o1v)
    let (o2n', o2v') :=
      if pyTruthy (rowGet r "Option2 Name") && notna (rowGet r "Option2 Value") then
        (rowGet r "Option2 Name", insertNew o2v (pyStrip (pyStr (rowGet r "Option2 Value"))))
      else (o2n, o2v)
    (o1n', o1v', o2n', o2v'))
    (PyVal.pynone, [], PyVal.pynone, [])

/-- Group assembly of csv_processor lines 210-241: variants from every
row of the group, option definitions from the collected sets (sorted),
scalar fields from the first row; any exception propagates. -/
def assembleGroup (m : ColumnMapping) (filename : String)
    (g : String × List Row) : Except String Product :=
  match exceptMapM (fun r => parse_variants_from_row r m filename) g.2 with
  | Except.error e => Except.error e
  | Except.ok vss =>
    let variants := vss.flatten
    let (o1n, o1v, o2n, o2v) := collectGroupOptions g.2
    match g.2 with
    | [] => Except.error "IndexError"
    | first_row :: _ =>
      match prepare_product_data first_row m filename with
      | Except.error e => Except.error e
      | Except.ok pd =>
        let options :=
          (if pyTruthy o1n && !o1v.isEmpty then
            [(pyStr o1n, sortStrings o1v)] else [])
          ++ (if pyTruthy o2n && !o2v.isEmpty then
            [(pyStr o2n, sortStrings o2v)] else [])
        Except.ok { pd with variants := variants, options := options }

/-- Return value of CSVProcessor.process_csv_file on success. -/
structure FileResult where
  filename : String
  products : List Product
  column_mapping : ColumnMapping
  total_rows : Nat
deriving DecidableEq, Repr

/-- CSVProcessor.process_csv_file body inside its try block
(csv_processor lines 188-250): indexing the literal TITLE column
(KeyError when absent), the three row filters, the empty check (the
source returns None there; the model tags it EmptyAfterFiltering),
column detection, grouping by the literal Handle column (KeyError when
absent), and per-group assembly whose first error aborts the file. -/
def processCsv (filename : String) (csv : Csv) : Except String FileResult :=
  if "TITLE" ∈ csv.header then
    if (filteredRows csv).isEmpty then Except.error "EmptyAfterFiltering"
    else
      match detect_csv_structure csv.header with
      | Except.error e => Except.error e
      | Except.ok m =>
        if "Handle" ∈ csv.header then
          match exceptMapM (assembleGroup m filename) (groupByHandle (filteredRows csv)) with
          | Except.error e => Except.error e
          | Except.ok products =>
            Except.ok
              { filename := filename
                products := products
                column_mapping := m
                total_rows := (filteredRows csv).length }
        else Except.error "KeyError"
  else Except.error "KeyError"

/-- CSVProcessor.process_csv_file: the catch-all except of lines
252-254 turns every raised exception (and the empty-after-filtering
early return) into None. The filename argument is the basename of the
path the source derives on line 189. -/
def process_csv_file (filename : String) (csv : Csv) : Option FileResult :=
  match processCsv filename csv with
  | Except.ok res => some res
  | Except.error _ => Option.none

/-- Column mapping with every field unmapped, for concrete tests. -/
def noMapping : ColumnMapping :=
  { title := Option.none, description := Option.none, price := Option.none,
    variants := Option.none, quantity := Option.none, tags := Option.none,
    vendor := Option.none, category := Option.none, image := Option.none,
    tax := Option.none, track := Option.none }

/-- Placeholder product used to extract the payload of a successful
computation in concrete witnesses. -/
def junkProduct : Product :=
  { title := "", handle := PyVal.pynone, body_html := "", vendor := "",
    product_type := "", product_category := PyVal.pynone, tags := "",
    status := "", variants := [], images := [], options := [] }

/-- C10: CSV whose headers carry a title synonym but not the literal
TITLE column. -/
def c10csv : Csv := { header := ["title", "Price"], rows := [["Rose", "25"]] }

/-- C3: the Rose Oil scenario CSV of the spec, which has no Handle
column. -/
def c3csv : Csv :=
  { header := ["TITLE", "Price", "Option1 Name", "Option1 Value"],
    rows := [["Rose Oil", "25", "Size", "5,10"]] }

/-- Exclusion predicate of claim C6: the title cell is missing/NA,
blank after trimming, or begins with the comment marker. -/
def titleExcluded (r : Row) : Bool :=
  !notna (rowGet r "TITLE")
    || pyStrip (pyStr (rowGet r "TITLE")) == ""
    || pyStartsWith (pyStr (rowGet r "TITLE")) "#"

/-- C6: CSV whose every row has a comment-marked, whitespace, or
missing title. -/
def c6csv : Csv := { header := ["TITLE"], rows := [["# note"], ["   "], [""]] }

deriving instance DecidableEq for Except

/-- Placeholder variant used to extract list elements in concrete
witnesses. -/
def junkVariant : Variant :=
  { title := "", option1 := "", option2 := Option.none, price := "",
    sku := "", inventory_quantity := 0, weight := DEFAULT_WEIGHT,
    weight_unit := "", inventory_management := "", inventory_policy := "",
    requires_shipping := false, taxable := false }

/-- C7: CSV with two handle groups in which the first group raises a
ValueError (non-numeric inventory_quantity cell) during assembly. -/
def c7csv : Csv :=
  { header := ["TITLE", "Handle", "Price", "inventory_quantity"],
    rows := [["P1", "a", "10", "abc"], ["P2", "b", "20", "5"]] }

/-- C7: the column mapping the detector produces for the c7csv
headers. -/
def c7map : ColumnMapping :=
  { noMapping with title := some "TITLE", price := some "Price" }

/-- C9: row whose tax-flag column ("Charge tax on this product") says
false. -/
def c9row : Row :=
  [("TITLE", PyVal.str "Pot"), ("Charge tax on this product", PyVal.str "false")]

/-- C9: mapping in which the tax field resolves to the tax-flag
column. -/
def c9map : ColumnMapping :=
  { noMapping with title := some "TITLE",
                   tax := some "Charge tax on this product" }

/-- C9: the variants the builder emits for `c9row`. -/
def c9vs : List Variant :=
  (parse_variants_from_row c9row c9map "pots.csv").toOption.getD []

/-- C1: concrete row with option-1 values A, B and option-2 values
X, Y. -/
def c1row : Row :=
  [("TITLE", PyVal.str "Tee"), ("Option1 Name", PyVal.str "Size"),
   ("Option1 Value", PyVal.str "A, B"), ("Option2 Name", PyVal.str "Color"),
   ("Option2 Value", PyVal.str "X,Y")]

/-- C1: mapping for the concrete row. -/
def c1map : ColumnMapping := { noMapping with title := some "TITLE" }

/-- C1: the variants the builder emits for `c1row`. -/
def c1vs : List Variant :=
  (parse_variants_from_row c1row c1map "shirts.csv").toOption.getD []

/-- C4: the file prefix exactly as the claim words it - the first three
alphanumeric characters of the filename stem, uppercased. -/
def claimFilePart (filename : String) : String :=
  pyUpper (String.mk (((pathStem filename).toList.filter Char.isAlphanum).take 3))

/-- C4: row and mapping for the fallback branch. -/
def c4row : Row := [("TITLE", PyVal.str "Tee")]

/-- C4: mapping for the concrete row. -/
def c4map : ColumnMapping := { noMapping with title := some "TITLE" }

/-- C4: the variants the builder emits for `c4row` and the dotted
filename. -/
def c4vs : List Variant :=
  (parse_variants_from_row c4row c4map "a.b.csv").toOption.getD []

/-- C5: concrete row for the description-default witness. -/
def c5row : Row := [("TITLE", PyVal.str "Rose Oil"), ("Handle", PyVal.str "rose")]

/-- C5: mapping with no description column. -/
def c5map : ColumnMapping := { noMapping with title := some "TITLE" }

/-- C5: the assembled product for `c5row`. -/
def c5p : Product :=
  (prepare_product_data c5row c5map "oils.csv").toOption.getD junkProduct

/-- C5: small CSV for the run-twice conjunct. -/
def c5csv : Csv :=
  { header := ["TITLE", "Handle"], rows := [["Rose Oil", "rose"]] }

/-- Decidable check of the claimed price pattern: one or more digits,
one dot, exactly two digits (the regex of the spec). -/
def matchesPriceRegexB (s : String) : Bool :=
  decide (s.toList.takeWhile Char.isDigit ≠ [])
  && (match s.toList.dropWhile Char.isDigit with
      | '.' :: fr => fr.all Char.isDigit && decide (fr.length = 2)
      | _ => false)

/-- C8: row whose price cell is a parsable negative number. -/
def c8row : Row := [("TITLE", PyVal.str "Pot"), ("Price", PyVal.str "-5")]

/-- C8: mapping with the price column mapped. -/
def c8map : ColumnMapping :=
  { noMapping with title := some "TITLE", price := some "Price" }

/-- C8: the variants the builder emits for `c8row`. -/
def c8vs : List Variant :=
  (parse_variants_from_row c8row c8map "pots2.csv").toOption.getD []

/-- C2: mapping detected for a CSV with TITLE, Handle, Price and
inventory_quantity headers. -/
def c2map : ColumnMapping :=
  { noMapping with title := some "TITLE", price := some "Price" }

/-- C2: one raw row of the group, with the given inventory_quantity
cell. -/
def c2row (q : String) : Row :=
  [("TITLE", PyVal.str "P"), ("Handle", PyVal.str "h"),
   ("Price", PyVal.str "10"), ("inventory_quantity", PyVal.str q)]

/-- C2: the single fallback variant a `c2row` produces, carrying the
quantity parsed from its own cell. -/
def c2variant (n : Int) : Variant :=
  { title := "50ml", option1 := "50ml", option2 := Option.none,
    price := "10.00", sku := "PRO-P-50", inventory_quantity := n,
    weight := DEFAULT_WEIGHT, weight_unit := DEFAULT_WEIGHT_UNIT,
    inventory_management := "shopify",
    inventory_policy := DEFAULT_INVENTORY_POLICY,
    requires_shipping := true, taxable := true }

/-- C2: the product assembled from the two-row group. -/
def c2product (n1 n2 : Int) : Product :=
  { title := "P", handle := PyVal.str "h",
    body_html := "<p>P - Imported from products</p>",
    vendor := "Default Vendor", product_type := "General",
    product_category := PyVal.str "", tags := "imported", status := "draft",
    variants := [c2variant n1, c2variant n2], images := [], options := [] }

/-- C2: the spec's quantity-aggregation scenario as a concrete CSV: two
rows, same handle, quantities 3 and 5, no option columns. -/
def c2csv : Csv :=
  { header := ["TITLE", "Handle", "Price", "inventory_quantity"],
    rows := [["P", "h", "10", "3"], ["P", "h", "10", "5"]] }

/-- C10: the row filter indexes the literal TITLE column before the
Column Mapper runs, so any CSV without that exact header returns the
failure result (None) with no products, even if a synonym like title,
name or product_name is present. -/
theorem C10_literal_TITLE_required (fn : String) (csv : Csv)
    (h : "TITLE" ∉ csv.header) :
    process_csv_file fn csv = Option.none := by
  unfold process_csv_file processCsv
  rw [if_neg h]

/-- C10 witness: headers [title, Price] satisfy the Column Mapper, yet
the pipeline returns None. -/
theorem C10_literal_TITLE_required_witness :
    "TITLE" ∉ c10csv.header
    ∧ (detect_csv_structure c10csv.header).isOk = true
    ∧ process_csv_file "rose.csv" c10csv = Option.none :=
  ⟨by decide, by decide, C10_literal_TITLE_required "rose.csv" c10csv (by decide)⟩

/-- C3 counterexample: on the scenario CSV the pipeline produces no
product at all (grouping raises KeyError on the missing Handle column),
not one Rose Oil product with two variants. -/
theorem C3_counterexample :
    process_csv_file "rose-oil.csv" c3csv = Option.none
    ∧ (process_csv_file "rose-oil.csv" c3csv).map (fun res => res.products.length)
        ≠ some 1 := by
  constructor
  · decide
  · decide

/-- C3 amended: there is no fallback to the title field; grouping uses
only the literal Handle column, and any CSV without that header returns
the failure result (None) with zero products. -/
theorem C3_handle_required (fn : String) (csv : Csv)
    (h : "Handle" ∉ csv.header) :
    process_csv_file fn csv = Option.none := by
  cases hp : processCsv fn csv with
  | error e => unfold process_csv_file; rw [hp]
  | ok res =>
    exfalso
    unfold processCsv at hp
    simp only [if_neg h] at hp
    repeat' split at hp
    all_goals exact Except.noConfusion hp

/-- C3 witness: the scenario CSV has no Handle header, and the theorem
yields the None result there. -/
theorem C3_handle_required_witness :
    "Handle" ∉ c3csv.header
    ∧ process_csv_file "rose-oil.csv" c3csv = Option.none :=
  ⟨by decide, C3_handle_required "rose-oil.csv" c3csv (by decide)⟩

/-- C6: the filtered row list keeps exactly the rows not excluded by
`titleExcluded`, and when every row is excluded the pipeline returns
the failure result (None, tagged EmptyAfterFiltering in the model) with
zero products. -/
theorem C6_filtering (fn : String) (csv : Csv)
    (hT : "TITLE" ∈ csv.header) :
    filteredRows csv
      = (csv.rows.map (buildRow csv.header)).filter (fun r => !titleExcluded r)
    ∧ (filteredRows csv = [] → process_csv_file fn csv = Option.none) := by
  constructor
  · unfold filteredRows
    rw [List.filter_filter, List.filter_filter]
    apply List.filter_congr
    intro r _
    unfold titleExcluded
    cases hn : notna (rowGet r "TITLE") <;>
      cases hs : pyStartsWith (pyStr (rowGet r "TITLE")) "#" <;>
        cases ht : pyStrip (pyStr (rowGet r "TITLE")) == "" <;>
          simp [hn, hs, ht, bne]
  · intro h
    unfold process_csv_file processCsv
    rw [if_pos hT, h]
    rfl

/-- C6 witness: on a CSV of one comment row, one whitespace row and one
empty row, everything is filtered and the pipeline returns None. -/
theorem C6_filtering_witness :
    "TITLE" ∈ c6csv.header
    ∧ filteredRows c6csv = []
    ∧ process_csv_file "junk.csv" c6csv = Option.none :=
  ⟨by decide, by decide, (C6_filtering "junk.csv" c6csv (by decide)).2 (by decide)⟩

/-- Inversion of a successful pipeline run: success needs the literal
TITLE header, surviving rows, the literal Handle header, a detected
mapping, and every group assembled without exception. -/
theorem processCsv_ok_inv (fn : String) (csv : Csv) (res : FileResult)
    (h : processCsv fn csv = Except.ok res) :
    "TITLE" ∈ csv.header
    ∧ (filteredRows csv).isEmpty = false
    ∧ "Handle" ∈ csv.header
    ∧ ∃ m products,
        detect_csv_structure csv.header = Except.ok m
        ∧ exceptMapM (assembleGroup m fn) (groupByHandle (filteredRows csv))
            = Except.ok products
        ∧ res = { filename := fn, products := products, column_mapping := m,
                  total_rows := (filteredRows csv).length } := by
  unfold processCsv at h
  split at h
  next hT =>
    split at h
    next hE => exact Except.noConfusion h
    next hE =>
      split at h
      next e hd => exact Except.noConfusion h
      next m hd =>
        split at h
        next hH =>
          split at h
          next e hps => exact Except.noConfusion h
          next products hps =>
            simp only [Except.ok.injEq] at h
            exact ⟨hT, by simpa using hE, hH, m, products, hd, hps, h.symm⟩
        next hH => exact Except.noConfusion h
  next hT => exact Except.noConfusion h

/-- C7 counterexample: the failing first group does not merely get
skipped; the whole file returns None, so the intact second group (one
product) never appears in any FileResult. -/
theorem C7_counterexample :
    process_csv_file "f.csv" c7csv = Option.none
    ∧ (process_csv_file "f.csv" c7csv).map (fun res => res.products.length)
        ≠ some 1 := by
  constructor
  · decide
  · decide

/-- C7 amended: there is no per-group exception handling; an exception
while assembling any product group propagates to the file-level
catch-all and the whole file returns None, never a partial
FileResult. -/
theorem C7_group_error_aborts_file (fn : String) (csv : Csv)
    (m : ColumnMapping) (e : String)
    (hm : detect_csv_structure csv.header = Except.ok m)
    (he : exceptMapM (assembleGroup m fn) (groupByHandle (filteredRows csv))
      = Except.error e) :
    process_csv_file fn csv = Option.none := by
  cases hp : processCsv fn csv with
  | error e2 => unfold process_csv_file; rw [hp]
  | ok res =>
    exfalso
    obtain ⟨-, -, -, m2, products, hm2, hps, -⟩ := processCsv_ok_inv fn csv res hp
    rw [hm] at hm2
    injection hm2 with hmm
    subst hmm
    rw [he] at hps
    exact Except.noConfusion hps

/-- C7 witness: on the concrete two-group CSV the first group errors
and the pipeline returns None. -/
theorem C7_group_error_aborts_file_witness :
    detect_csv_structure c7csv.header = Except.ok c7map
    ∧ exceptMapM (assembleGroup c7map "f.csv") (groupByHandle (filteredRows c7csv))
        = Except.error "ValueError"
    ∧ process_csv_file "f.csv" c7csv = Option.none :=
  ⟨by decide, by decide,
    C7_group_error_aborts_file "f.csv" c7csv c7map "ValueError" (by decide) (by decide)⟩

/-- C9 counterexample: the tax-flag column is mapped and its cell reads
false, yet the emitted variant still carries taxable = true - the
column is never consulted. -/
theorem C9_counterexample :
    c9map.tax = some "Charge tax on this product"
    ∧ rowGet c9row "Charge tax on this product" = PyVal.str "false"
    ∧ parse_variants_from_row c9row c9map "pots.csv" = Except.ok c9vs
    ∧ c9vs.map (fun v => v.taxable) = [true] := by
  refine ⟨by decide, by decide, by decide, by decide⟩

/-- C9 amended: every variant the Variant Builder emits, in every
branch, has taxable = true unconditionally; the tax-flag column of the
Column Mapper is ignored. -/
theorem C9_taxable_always_true (r : Row) (m : ColumnMapping) (fn : String)
    (vs : List Variant) (hok : parse_variants_from_row r m fn = Except.ok vs) :
    ∀ v ∈ vs, v.taxable = true := by
  unfold parse_variants_from_row at hok
  split at hok
  next e hq => exact Except.noConfusion hok
  next quantity hq =>
    split at hok
    next e ht => exact Except.noConfusion hok
    next t ht =>
      split at hok
      · simp only [Except.ok.injEq] at hok
        subst hok
        intro v hv
        simp only [List.mem_map] at hv
        obtain ⟨a, -, rfl⟩ := hv
        rfl
      · split at hok
        · simp only [Except.ok.injEq] at hok
          subst hok
          intro v hv
          simp only [List.mem_flatMap, List.mem_map] at hv
          obtain ⟨a, -, b, -, rfl⟩ := hv
          rfl
        · simp only [Except.ok.injEq] at hok
          subst hok
          intro v hv
          simp only [List.mem_singleton] at hv
          subst hv
          rfl

/-- C9 witness: the amended theorem applied to the concrete c9row. -/
theorem C9_taxable_always_true_witness :
    parse_variants_from_row c9row c9map "pots.csv" = Except.ok c9vs
    ∧ (c9vs.getD 0 junkVariant).taxable = true := by
  constructor
  · decide
  · exact C9_taxable_always_true c9row c9map "pots.csv" c9vs (by decide)
      (c9vs.getD 0 junkVariant) (by decide)

/-- List helper: mapping over a cross product maps the combining
function pointwise. -/
theorem map_cross {α β γ δ : Type} (l1 : List α) (l2 : List β)
    (f : α → β → γ) (g : γ → δ) :
    (l1.flatMap (fun a => l2.map (f a))).map g
      = l1.flatMap (fun a => l2.map (fun b => g (f a b))) := by
  induction l1 with
  | nil => rfl
  | cons a t ih =>
    simp [List.flatMap_cons, List.map_append, ih, List.map_map, Function.comp]

/-- List helper: a cross product has the product of the lengths. -/
theorem length_cross {α β γ : Type} (l1 : List α) (l2 : List β)
    (f : α → β → γ) :
    (l1.flatMap (fun a => l2.map (f a))).length = l1.length * l2.length := by
  induction l1 with
  | nil => simp
  | cons a t ih =>
    simp [List.flatMap_cons, ih, Nat.succ_mul, Nat.add_comm]

/-- C1: when both option names are present (nonempty strings) and both
comma-split value lists are nonempty, a normally returning Variant
Builder emits exactly the cross product: option-1 values as the outer
loop, option-2 values as the inner loop, in source order, the variant
title being val1, a spaced slash, val2, and the option fields the pair
itself. -/
theorem C1_cross_product (r : Row) (m : ColumnMapping) (fn : String)
    (n1 n2 : String)
    (h1 : rowGet r "Option1 Name" = PyVal.str n1) (h1ne : n1 ≠ "")
    (h2 : rowGet r "Option2 Name" = PyVal.str n2) (h2ne : n2 ≠ "")
    (hv1 : optionValues r "Option1 Value" ≠ [])
    (hv2 : optionValues r "Option2 Value" ≠ [])
    (vs : List Variant)
    (hok : parse_variants_from_row r m fn = Except.ok vs) :
    vs.map (fun v => v.title)
      = (optionValues r "Option1 Value").flatMap (fun v1 =>
          (optionValues r "Option2 Value").map (fun v2 => v1 ++ " / " ++ v2))
    ∧ vs.map (fun v => (v.option1, v.option2))
      = (optionValues r "Option1 Value").flatMap (fun v1 =>
          (optionValues r "Option2 Value").map (fun v2 => (v1, some v2)))
    ∧ vs.length
      = (optionValues r "Option1 Value").length
          * (optionValues r "Option2 Value").length := by
  have hb1 : pyTruthy (rowGet r "Option1 Name") = true := by
    simp [h1, pyTruthy, h1ne]
  have hb2 : pyTruthy (rowGet r "Option2 Name") = true := by
    simp [h2, pyTruthy, h2ne]
  have he1 : (optionValues r "Option1 Value").isEmpty = false := by
    cases hl : optionValues r "Option1 Value"
    · exact absurd hl hv1
    · rfl
  have he2 : (optionValues r "Option2 Value").isEmpty = false := by
    cases hl : optionValues r "Option2 Value"
    · exact absurd hl hv2
    · rfl
  unfold parse_variants_from_row at hok
  split at hok
  next e hq => exact Except.noConfusion hok
  next quantity hq =>
    split at hok
    next e ht => exact Except.noConfusion hok
    next t ht =>
      rw [hb1, hb2, he1, he2] at hok
      simp only [Bool.not_true, Bool.not_false, Bool.and_true, Bool.true_and,
        Bool.and_false, Bool.false_and, Bool.false_eq_true, if_false, if_true,
        reduceIte, Except.ok.injEq] at hok
      subst hok
      refine ⟨?_, ?_, ?_⟩
      · rw [map_cross]
      · rw [map_cross]
      · rw [length_cross]

/-- C1 witness: option-1 values [A, B] and option-2 values [X, Y] give
exactly the titles A / X, A / Y, B / X, B / Y in order. -/
theorem C1_cross_product_witness :
    parse_variants_from_row c1row c1map "shirts.csv" = Except.ok c1vs
    ∧ c1vs.map (fun v => v.title) = ["A / X", "A / Y", "B / X", "B / Y"] := by
  refine ⟨by decide, ?_⟩
  have h := (C1_cross_product c1row c1map "shirts.csv" "Size" "Color"
    (by decide) (by decide) (by decide) (by decide) (by decide) (by decide)
    c1vs (by decide)).1
  exact h.trans (by decide)

/-- C4 counterexample: for the filename a.b.csv the stem is a.b; the
code removes only dashes and underscores, so the emitted SKU starts
with A.B (dot kept), while the claim formula (first three alnum
characters) would give AB - the claimed byte-for-byte equality fails at
this input. -/
theorem C4_counterexample :
    parse_variants_from_row c4row c4map "a.b.csv" = Except.ok c4vs
    ∧ c4vs.map (fun v => v.sku) = ["A.B-TEE-50"]
    ∧ claimFilePart "a.b.csv" = "AB"
    ∧ "A.B-TEE-50" ≠ claimFilePart "a.b.csv" ++ "-" ++ titlePart "Tee" ++ "-" ++ "50" := by
  refine ⟨by decide, by decide, by decide, by decide⟩

/-- C4 amended: in every branch the SKU is the dash-joined triple of
the file part (first three characters of the stem with dashes and
underscores removed, uppercased - dots and other characters are kept),
the title part (first ten characters of the title with spaces turned to
dashes and apostrophes removed, uppercased) and a branch-specific
option-value segment. -/
theorem C4_sku_shape (r : Row) (m : ColumnMapping) (fn : String) (t : String)
    (vs : List Variant)
    (hok : parse_variants_from_row r m fn = Except.ok vs)
    (ht : rowIndexStr r m.title = Except.ok t) :
    ∀ v ∈ vs, ∃ seg, v.sku = filePart fn ++ "-" ++ titlePart t ++ "-" ++ seg := by
  unfold parse_variants_from_row at hok
  split at hok
  next e hq => exact Except.noConfusion hok
  next quantity hq =>
    split at hok
    next e ht2 => exact Except.noConfusion hok
    next t2 ht2 =>
      rw [ht] at ht2
      injection ht2 with ht2
      subst ht2
      split at hok
      · simp only [Except.ok.injEq] at hok
        subst hok
        intro v hv
        simp only [List.mem_map] at hv
        obtain ⟨a, -, rfl⟩ := hv
        exact ⟨a, rfl⟩
      · split at hok
        · simp only [Except.ok.injEq] at hok
          subst hok
          intro v hv
          simp only [List.mem_flatMap, List.mem_map] at hv
          obtain ⟨a, -, b, -, rfl⟩ := hv
          exact ⟨a ++ "-" ++ b, by simp [String.append_assoc]⟩
        · simp only [Except.ok.injEq] at hok
          subst hok
          intro v hv
          simp only [List.mem_singleton] at hv
          subst hv
          exact ⟨variantSizeRaw r m, rfl⟩

/-- C4 witness: the amended SKU shape at the concrete input, via the
theorem. -/
theorem C4_sku_shape_witness :
    parse_variants_from_row c4row c4map "a.b.csv" = Except.ok c4vs
    ∧ rowIndexStr c4row c4map.title = Except.ok "Tee"
    ∧ ∃ seg, (c4vs.getD 0 junkVariant).sku
        = filePart "a.b.csv" ++ "-" ++ titlePart "Tee" ++ "-" ++ seg := by
  refine ⟨by decide, by decide, ?_⟩
  exact C4_sku_shape c4row c4map "a.b.csv" "Tee" c4vs (by decide) (by decide)
    (c4vs.getD 0 junkVariant) (by decide)

/-- C5: the File Pipeline is a pure function of the file content - two
runs on the same CSV give the same FileResult - and when no description
column is mapped the defaulted body_html deterministically embeds only
the product title and the filename stem (no timestamp or other
state). -/
theorem C5_deterministic (fn : String) (csv : Csv) (r : Row)
    (m : ColumnMapping) (p : Product)
    (hdesc : m.description = Option.none)
    (hp : prepare_product_data r m fn = Except.ok p) :
    process_csv_file fn csv = process_csv_file fn csv
    ∧ p.body_html = "<p>" ++ p.title ++ " - Imported from " ++ pathStem fn ++ "</p>" := by
  refine ⟨rfl, ?_⟩
  cases htv : rowIndexVal r m.title with
  | error e =>
    unfold prepare_product_data at hp
    rw [htv] at hp
    exact Except.noConfusion hp
  | ok titleVal =>
    cases hpv : parse_variants_from_row r m fn with
    | error e =>
      unfold prepare_product_data at hp
      simp only [htv, hpv] at hp
      exact Except.noConfusion hp
    | ok variants =>
      unfold prepare_product_data at hp
      simp only [htv, hpv, hdesc] at hp
      simp only [Except.ok.injEq] at hp
      subst hp
      simp [clean_and_format_data]

/-- C5 witness: the theorem applied to the concrete row, mapping and
CSV. -/
theorem C5_deterministic_witness :
    c5map.description = Option.none
    ∧ prepare_product_data c5row c5map "oils.csv" = Except.ok c5p
    ∧ (process_csv_file "oils.csv" c5csv = process_csv_file "oils.csv" c5csv
       ∧ c5p.body_html
           = "<p>" ++ c5p.title ++ " - Imported from " ++ pathStem "oils.csv" ++ "</p>") :=
  ⟨by decide, by decide,
    C5_deterministic "oils.csv" c5csv c5row c5map c5p (by decide) (by decide)⟩

/-- Digit characters below ten print as digit characters. -/
theorem digitChar_isDigit (k : Nat) (hk : k < 10) :
    (Nat.digitChar k).isDigit = true := by
  interval_cases k <;> decide

/-- Every character the reversed-digit printer emits is a digit. -/
theorem natToRevDigitsAux_digits (fuel : Nat) :
    ∀ (n : Nat) (c : Char), c ∈ natToRevDigitsAux fuel n → c.isDigit = true := by
  induction fuel with
  | zero => intro n c hc; simp [natToRevDigitsAux] at hc
  | succ f ih =>
    intro n c hc
    cases n with
    | zero => simp [natToRevDigitsAux] at hc
    | succ k =>
      rw [natToRevDigitsAux] at hc
      rcases List.mem_cons.mp hc with h | h
      · subst h
        exact digitChar_isDigit _ (Nat.mod_lt _ (by norm_num))
      · exact ih _ c h

/-- The decimal printer never emits an empty digit list. -/
theorem natDigits_ne_nil (n : Nat) : natDigits n ≠ [] := by
  unfold natDigits
  split
  · simp
  · next hn =>
    cases n with
    | zero => exact absurd rfl hn
    | succ k => simp [natToRevDigits, natToRevDigitsAux]

/-- Every character of the decimal printer is a digit. -/
theorem natDigits_digits (n : Nat) : ∀ c ∈ natDigits n, c.isDigit = true := by
  unfold natDigits
  split
  · intro c hc
    simp only [List.mem_singleton] at hc
    subst hc
    decide
  · intro c hc
    exact natToRevDigitsAux_digits n n c (List.mem_reverse.mp hc)

/-- takeWhile and dropWhile of an all-true block followed by a failing
character. -/
theorem takeWhile_all_append (p : Char → Bool) (l1 l2 : List Char) (c : Char)
    (h1 : ∀ x ∈ l1, p x = true) (hc : p c = false) :
    (l1 ++ c :: l2).takeWhile p = l1 ∧ (l1 ++ c :: l2).dropWhile p = c :: l2 := by
  induction l1 with
  | nil => simp [List.takeWhile, List.dropWhile, hc]
  | cons a t ih =>
    have ha : p a = true := h1 a (List.mem_cons_self a t)
    have iht := ih (fun x hx => h1 x (List.mem_cons_of_mem a hx))
    simp [List.takeWhile_cons, List.dropWhile_cons, ha, iht.1, iht.2]

/-- A nonempty digit block, a dot and two digits match the price
pattern. -/
theorem matches_of_parts (dA d2 : List Char) (hA : dA ≠ [])
    (hAd : ∀ c ∈ dA, c.isDigit = true) (h2len : d2.length = 2)
    (h2d : ∀ c ∈ d2, c.isDigit = true) :
    matchesPriceRegexB (String.mk (dA ++ '.' :: d2)) = true := by
  have hdot : Char.isDigit '.' = false := by decide
  obtain ⟨ht, hd⟩ := takeWhile_all_append Char.isDigit dA d2 '.' hAd hdot
  unfold matchesPriceRegexB
  rw [show (String.mk (dA ++ '.' :: d2)).toList = dA ++ '.' :: d2 from rfl]
  rw [ht, hd]
  simp only [Bool.and_eq_true, decide_eq_true_eq, List.all_eq_true]
  exact ⟨hA, h2d, h2len⟩

/-- C8 amended: a cleaned price string that parses as a number without
a leading minus sign formats to a string matching the pattern of one or
more digits, a dot and exactly two digits; a cleaned price string that
does not parse formats to exactly "0.00". (A parsed negative input
instead yields a minus sign followed by that pattern, which falls
outside the claimed regex.) -/
theorem C8_price_format (s : String) :
    (∀ d : Dec, parsePyFloat s = some d → d.neg = false →
       matchesPriceRegexB (pyPriceFormat s) = true)
    ∧ (parsePyFloat s = Option.none → pyPriceFormat s = "0.00") := by
  constructor
  · intro d hd hneg
    unfold pyPriceFormat formatTwoDec
    simp only [hd, hneg, Bool.false_eq_true, if_false, List.nil_append]
    apply matches_of_parts
    · exact natDigits_ne_nil _
    · exact natDigits_digits _
    · rfl
    · intro c hc
      unfold twoDigits at hc
      rcases List.mem_cons.mp hc with h | h
      · subst h
        exact digitChar_isDigit _ (Nat.mod_lt _ (by norm_num))
      · simp only [List.mem_singleton] at h
        subst h
        exact digitChar_isDigit _ (Nat.mod_lt _ (by norm_num))
  · intro h
    unfold pyPriceFormat
    rw [h]
    rfl

/-- C8 counterexample: the cleaned price string -5 parses as a number,
yet the emitted variant price is -5.00, which does not match the
claimed pattern of digits, dot, two digits. -/
theorem C8_counterexample :
    parsePyFloat "-5" = some { neg := true, mag := 5, exp := 0 }
    ∧ parse_variants_from_row c8row c8map "pots2.csv" = Except.ok c8vs
    ∧ c8vs.map (fun v => v.price) = ["-5.00"]
    ∧ matchesPriceRegexB "-5.00" = false := by
  refine ⟨by decide, by decide, by decide, by decide⟩

/-- C8 witness: a parsable non-negative input matches the pattern and
an unparsable input formats to 0.00, via the theorem. -/
theorem C8_price_format_witness :
    parsePyFloat "2.5" = some { neg := false, mag := 25, exp := 1 }
    ∧ matchesPriceRegexB (pyPriceFormat "2.5") = true
    ∧ parsePyFloat "kg" = Option.none
    ∧ pyPriceFormat "kg" = "0.00" :=
  ⟨by decide,
   (C8_price_format "2.5").1 { neg := false, mag := 25, exp := 1 }
     (by decide) (by decide),
   by decide,
   (C8_price_format "kg").2 (by decide)⟩

/-- C2: on a no-option row the Variant Builder returns one variant
whose quantity is the `int` of that row's own inventory_quantity
cell. -/
theorem c2_parse (q : String) :
    parse_variants_from_row (c2row q) c2map "products.csv"
      = (pyIntOfString q).map (fun n => [c2variant n]) := by
  unfold parse_variants_from_row
  rw [show variantQuantity (c2row q) = pyIntOfString q from rfl]
  cases hpq : pyIntOfString q with
  | error e => rfl
  | ok n => rfl

/-- C2 amended: rows grouped under one product identity are not
aggregated; each grouped row emits its own variant carrying that row's
own quantity, so two rows with quantities q1 and q2 give one product
with two variants of quantities q1 and q2 (not one variant with their
sum). -/
theorem C2_no_quantity_aggregation (q1 q2 : String) (n1 n2 : Int)
    (h1 : pyIntOfString q1 = Except.ok n1)
    (h2 : pyIntOfString q2 = Except.ok n2) :
    ∃ p, assembleGroup c2map "products.csv" ("h", [c2row q1, c2row q2])
          = Except.ok p
      ∧ p.variants.map (fun v => v.inventory_quantity) = [n1, n2]
      ∧ p.variants.length = 2 := by
  have hp1 := c2_parse q1
  rw [h1] at hp1
  simp only [Except.map] at hp1
  have hp2 := c2_parse q2
  rw [h2] at hp2
  simp only [Except.map] at hp2
  have hpp : prepare_product_data (c2row q1) c2map "products.csv"
      = Except.ok { c2product n1 n2 with variants := [c2variant n1] } := by
    unfold prepare_product_data
    simp only [show rowIndexVal (c2row q1) c2map.title
        = Except.ok (PyVal.str "P") from rfl, hp1]
    rfl
  refine ⟨c2product n1 n2, ?_, by simp [c2product, c2variant], rfl⟩
  unfold assembleGroup
  simp only [exceptMapM, hp1, hp2, hpp]
  rfl

/-- C2 counterexample: the pipeline yields one product with two
variants of quantities 3 and 5 - not a single synthesized variant with
quantity 8. -/
theorem C2_counterexample :
    (process_csv_file "products.csv" c2csv).map
        (fun res => res.products.map (fun p => p.variants.map
          (fun v => v.inventory_quantity))) = some [[3, 5]]
    ∧ (process_csv_file "products.csv" c2csv).map
        (fun res => res.products.map (fun p => p.variants.length)) ≠ some [1] := by
  refine ⟨by decide, by decide⟩

/-- C2 witness: the amended theorem at quantities 3 and 5. -/
theorem C2_no_quantity_aggregation_witness :
    pyIntOfString "3" = Except.ok 3
    ∧ pyIntOfString "5" = Except.ok 5
    ∧ ∃ p, assembleGroup c2map "products.csv" ("h", [c2row "3", c2row "5"])
            = Except.ok p
        ∧ p.variants.map (fun v => v.inventory_quantity) = [3, 5]
        ∧ p.variants.length = 2 :=
  ⟨by decide, by decide,
    C2_no_quantity_aggregation "3" "5" 3 5 (by decide) (by decide)⟩
